import Mathlib

/- Formal model of the frame_exporter repository (exporter.py and exporter2.py).
   The mark state, the navigation clamping, the export step of both program
   variants, and the batch driver of exporter2.py are embedded as executable
   Lean functions; frame decoding and timestamp lookup are abstracted as an
   oracle of type Int to Option Rat, standing for the opaque FrameSource. -/

namespace FrameExporter

/-- Mark state of one annotation session: the optional first and last marked
frame indices and the accident flag (exporter.py line 94, exporter2.py lines
105 to 107). -/
structure MarkState where
  firstFrame : Option Int
  lastFrame : Option Int
  accidentFlag : Bool
  deriving DecidableEq, Repr

/-- The fresh mark state at the start of a video: nothing marked, no accident. -/
def emptyMark : MarkState := ⟨none, none, false⟩

/-- Toggle of the first mark at index i (exporter.py lines 109 to 110,
exporter2.py lines 124 to 126): unset when already equal to i, otherwise set
to i; when the first mark ends up unset, the last mark is cleared as well. -/
def toggleFirst (i : Int) (s : MarkState) : MarkState :=
  let f : Option Int := if s.firstFrame = some i then none else some i
  { firstFrame := f
    lastFrame := if f = none then none else s.lastFrame
    accidentFlag := s.accidentFlag }

/-- Toggle of the last mark at index i (exporter.py line 112, exporter2.py
line 128): unset when already equal to i, otherwise set to i. The first mark
is not consulted. -/
def toggleLast (i : Int) (s : MarkState) : MarkState :=
  { firstFrame := s.firstFrame
    lastFrame := if s.lastFrame = some i then none else some i
    accidentFlag := s.accidentFlag }

/-- One mark transition: a press of key f or key l at some current index. -/
inductive MarkOp where
  | tFirst (i : Int)
  | tLast (i : Int)
  deriving DecidableEq, Repr

/-- Application of one mark transition to a mark state. -/
def applyMarkOp (s : MarkState) : MarkOp → MarkState
  | MarkOp.tFirst i => toggleFirst i s
  | MarkOp.tLast i => toggleLast i s

/-- Application of a sequence of mark transitions, left to right. -/
def runMarkOps (s : MarkState) (ops : List MarkOp) : MarkState :=
  ops.foldl applyMarkOp s

/-- Invariant I1 of the spec: the last mark is set only while the first mark
is set. -/
def I1 (s : MarkState) : Prop := s.lastFrame ≠ none → s.firstFrame ≠ none

instance (s : MarkState) : Decidable (I1 s) := by
  unfold I1
  infer_instance

/-- A sequence of mark transitions is guarded when every toggleLast in it is
applied in a state whose first mark is set. -/
def lastGuarded (s : MarkState) : List MarkOp → Bool
  | [] => true
  | op :: ops =>
      (match op with
       | MarkOp.tLast _ => s.firstFrame.isSome
       | MarkOp.tFirst _ => true)
      && lastGuarded (applyMarkOp s op) ops

/-- Round half to even, the rounding mode of the Python builtin round,
modelled over the rationals. -/
def roundHalfEven (q : ℚ) : ℤ :=
  let f : ℤ := ⌊q⌋
  let r : ℚ := q - (f : ℚ)
  if r < 1 / 2 then f
  else if 1 / 2 < r then f + 1
  else if f % 2 = 0 then f else f + 1

/-- The Python expression round(x, 3) used by exporter.py lines 118 to 119,
modelled over the rationals: rounding to three decimal places, half to even. -/
def pyRound3 (q : ℚ) : ℚ := (roundHalfEven (q * 1000) : ℚ) / 1000

/-- The deterministic image filename used by save_frames in both files
(exporter.py line 54, exporter2.py line 64). -/
def frameFilename (i : Int) : String := "frame_" ++ toString i ++ ".jpg"

/-- One timestamp entry appended by save_frames: frame number, decoder
timestamp in milliseconds, accident status string. -/
structure TimestampEntry where
  frameNumber : Int
  timeMs : ℚ
  accidentStatus : String
  deriving DecidableEq, Repr

/-- The accident status string of save_frames (exporter.py line 56,
exporter2.py line 66). -/
def accidentStatusStr (accident : Bool) : String :=
  if accident then "Accident" else "No Accident"

/-- Body of the loop of save_frames for one frame number: when the decode
oracle succeeds the image file is written and a timestamp entry is appended;
when it fails nothing happens for that frame (exporter.py lines 49 to 57,
exporter2.py lines 59 to 67). The first component accumulates the image
filenames written, in order; the second the timestamp entries. -/
def saveFramesStep (decode : Int → Option ℚ) (accident : Bool)
    (acc : List String × List TimestampEntry) (frameNumber : Int) :
    List String × List TimestampEntry :=
  match decode frameNumber with
  | some t =>
      (acc.1 ++ [frameFilename frameNumber],
       acc.2 ++ [⟨frameNumber, t, accidentStatusStr accident⟩])
  | none => acc

/-- The save_frames function shared by both files (exporter.py lines 46 to 59,
exporter2.py lines 55 to 69): iterates over the two marked frame numbers,
returning the image files written and the timestamp entries collected. -/
def saveFrames (decode : Int → Option ℚ) (firstFrame lastFrame : Int)
    (accident : Bool) : List String × List TimestampEntry :=
  [firstFrame, lastFrame].foldl (saveFramesStep decode accident) ([], [])

/-- The mutable session variables of process_video in either file: the mark
state, the playback position, the loop flags and the total frame count. -/
structure VState where
  mark : MarkState
  currentFrame : Int
  frameCount : Int
  running : Bool
  paused : Bool
  fullscreen : Bool
  deriving DecidableEq, Repr

/-- The record row written by exporter.py on a successful export (line 120):
frame indices, rounded timestamps, rounded signed difference, accident flag. -/
structure ExportRecord where
  firstFrameIndex : Int
  firstFrameTimestampMs : ℚ
  lastFrameIndex : Int
  lastFrameTimestampMs : ℚ
  timeDifferenceMs : ℚ
  accidentFlag : Bool
  deriving DecidableEq, Repr

/-- Outcome of one press of key e in exporter.py: either the gate failed and
nothing happened, or the process died with an IndexError after some images
were already written, or the export succeeded with a record row. -/
inductive ExportOutcome where
  | noop
  | crashed (imagesWritten : List String)
  | exported (imagesWritten : List String) (record : ExportRecord)
  deriving DecidableEq, Repr

/-- The key e handler of exporter.py (lines 115 to 128). When both marks are
set, save_frames runs first; the subscripts timestamps[0] and timestamps[1]
on line 118 raise IndexError when fewer than two decodes succeeded, killing
the process after the images of the successful decodes were already written
and before any record row is written. On full success the record row is
written and the marks and accident flag are cleared in place; the loop keeps
running. -/
def handleExportE1 (decode : Int → Option ℚ) (s : VState) :
    VState × ExportOutcome :=
  match s.mark.firstFrame, s.mark.lastFrame with
  | some ff, some lf =>
      let out := saveFrames decode ff lf s.mark.accidentFlag
      match out.2 with
      | t0 :: t1 :: _ =>
          let firstMs := pyRound3 t0.timeMs
          let lastMs := pyRound3 t1.timeMs
          let diff := pyRound3 (lastMs - firstMs)
          let record : ExportRecord :=
            ⟨ff, firstMs, lf, lastMs, diff, s.mark.accidentFlag⟩
          ({ s with mark := ⟨none, none, false⟩ },
           ExportOutcome.exported out.1 record)
      | _ => (s, ExportOutcome.crashed out.1)
  | _, _ => (s, ExportOutcome.noop)

/-- The record row appended by exporter2.py on a successful export (line 137):
video name, the two raw timestamps, accident flag. -/
structure E2Record where
  videoName : String
  firstFrameMs : ℚ
  lastFrameMs : ℚ
  accidentFlag : Bool
  deriving DecidableEq, Repr

/-- Outcome of one press of key e in exporter2.py. -/
inductive E2Outcome where
  | noop
  | crashed (imagesWritten : List String)
  | exported (imagesWritten : List String) (record : E2Record)
  deriving DecidableEq, Repr

/-- The key e handler of exporter2.py (lines 133 to 140). When both marks are
set and both decodes succeed, the record row is appended and process_video
returns at once (modelled by running set to false): the session for this
video ends, the mark state is simply discarded, not reset. The same
IndexError hazard as exporter.py applies on lines 136. -/
def handleExportE2 (decode : Int → Option ℚ) (videoName : String)
    (s : VState) : VState × E2Outcome :=
  match s.mark.firstFrame, s.mark.lastFrame with
  | some ff, some lf =>
      let out := saveFrames decode ff lf s.mark.accidentFlag
      match out.2 with
      | t0 :: t1 :: _ =>
          ({ s with running := false },
           E2Outcome.exported out.1
             ⟨videoName, t0.timeMs, t1.timeMs, s.mark.accidentFlag⟩)
      | _ => (s, E2Outcome.crashed out.1)
  | _, _ => (s, E2Outcome.noop)

/-- A discrete input event of the pygame event loop, common to both files.
keyN and keySpace are handled only by exporter.py; exporter2.py ignores them
inside its event loop. -/
inductive PgEvent where
  | quit
  | scrollUp
  | scrollDown
  | keyF
  | keyL
  | keyComma
  | keyPeriod
  | keyE
  | keyA
  | keyF11
  | keyN
  | keySpace
  deriving DecidableEq, Repr

/-- The event dispatch of exporter.py (lines 99 to 143), one event at a time.
Scroll up clamps below at 0, scroll down clamps above at frameCount - 1; the
comma and period keys clamp on both sides at once (line 114). Key n clears
both marks but not the accident flag and stops the loop. -/
def stepE1 (decode : Int → Option ℚ) (s : VState) :
    PgEvent → VState × ExportOutcome
  | PgEvent.quit => ({ s with running := false }, ExportOutcome.noop)
  | PgEvent.scrollUp =>
      ({ s with currentFrame := max 0 (s.currentFrame - 1) },
       ExportOutcome.noop)
  | PgEvent.scrollDown =>
      ({ s with currentFrame := min (s.frameCount - 1) (s.currentFrame + 1) },
       ExportOutcome.noop)
  | PgEvent.keyF =>
      ({ s with mark := toggleFirst s.currentFrame s.mark }, ExportOutcome.noop)
  | PgEvent.keyL =>
      ({ s with mark := toggleLast s.currentFrame s.mark }, ExportOutcome.noop)
  | PgEvent.keyComma =>
      ({ s with currentFrame := max 0 (min (s.frameCount - 1) (s.currentFrame - 1)) },
       ExportOutcome.noop)
  | PgEvent.keyPeriod =>
      ({ s with currentFrame := max 0 (min (s.frameCount - 1) (s.currentFrame + 1)) },
       ExportOutcome.noop)
  | PgEvent.keyE => handleExportE1 decode s
  | PgEvent.keyA =>
      ({ s with mark := { s.mark with accidentFlag := !s.mark.accidentFlag } },
       ExportOutcome.noop)
  | PgEvent.keyF11 =>
      ({ s with fullscreen := !s.fullscreen }, ExportOutcome.noop)
  | PgEvent.keyN =>
      ({ s with
          mark := { s.mark with firstFrame := none, lastFrame := none },
          running := false },
       ExportOutcome.noop)
  | PgEvent.keySpace =>
      ({ s with paused := !s.paused }, ExportOutcome.noop)

/-- The event dispatch of exporter2.py (lines 114 to 148), one event at a
time. The comma key is max 0 (currentFrame - 1) and the period key is
min (frameCount - 1) (currentFrame + 1) (lines 129 to 132); there are no
handlers for key n or the space key inside the event loop. -/
def stepE2 (decode : Int → Option ℚ) (videoName : String) (s : VState) :
    PgEvent → VState × E2Outcome
  | PgEvent.quit => ({ s with running := false }, E2Outcome.noop)
  | PgEvent.scrollUp =>
      ({ s with currentFrame := max 0 (s.currentFrame - 1) }, E2Outcome.noop)
  | PgEvent.scrollDown =>
      ({ s with currentFrame := min (s.frameCount - 1) (s.currentFrame + 1) },
       E2Outcome.noop)
  | PgEvent.keyF =>
      ({ s with mark := toggleFirst s.currentFrame s.mark }, E2Outcome.noop)
  | PgEvent.keyL =>
      ({ s with mark := toggleLast s.currentFrame s.mark }, E2Outcome.noop)
  | PgEvent.keyComma =>
      ({ s with currentFrame := max 0 (s.currentFrame - 1) }, E2Outcome.noop)
  | PgEvent.keyPeriod =>
      ({ s with currentFrame := min (s.frameCount - 1) (s.currentFrame + 1) },
       E2Outcome.noop)
  | PgEvent.keyE => handleExportE2 decode videoName s
  | PgEvent.keyA =>
      ({ s with mark := { s.mark with accidentFlag := !s.mark.accidentFlag } },
       E2Outcome.noop)
  | PgEvent.keyF11 =>
      ({ s with fullscreen := !s.fullscreen }, E2Outcome.noop)
  | PgEvent.keyN => (s, E2Outcome.noop)
  | PgEvent.keySpace => (s, E2Outcome.noop)

/-- The four pure navigation events of the claim list. -/
inductive NavEvent where
  | stepBack
  | stepForward
  | scrollUp
  | scrollDown
  deriving DecidableEq, Repr

/-- Injection of navigation events into pygame events: step back is the comma
key, step forward the period key. -/
def navToPg : NavEvent → PgEvent
  | NavEvent.stepBack => PgEvent.keyComma
  | NavEvent.stepForward => PgEvent.keyPeriod
  | NavEvent.scrollUp => PgEvent.scrollUp
  | NavEvent.scrollDown => PgEvent.scrollDown

/-- Runs a sequence of navigation events through the exporter.py dispatcher,
keeping only the state. -/
def runNavE1 (decode : Int → Option ℚ) (s : VState) (evs : List NavEvent) :
    VState :=
  evs.foldl (fun t e => (stepE1 decode t (navToPg e)).1) s

/-- Runs a sequence of navigation events through the exporter2.py dispatcher,
keeping only the state. -/
def runNavE2 (decode : Int → Option ℚ) (videoName : String) (s : VState)
    (evs : List NavEvent) : VState :=
  evs.foldl (fun t e => (stepE2 decode videoName t (navToPg e)).1) s

/-- Kind of the input path argument of exporter2.py main. -/
inductive PathKind where
  | file
  | dir
  | invalid
  deriving DecidableEq, Repr

/-- Environment of one run of exporter2.py: the usage flag, the kind of the
input path, whether the output folder dialog returned a folder, and whether
each video opens (one boolean per enumerated video in directory mode, one
for the single video in file mode). -/
structure Env where
  usageFlag : Bool
  pathKind : PathKind
  folderSelected : Bool
  videoOpens : List Bool
  singleOpens : Bool
  deriving DecidableEq, Repr

/-- The process exit code of exporter2.py. The usage flag exits 0 inside
parse_arguments (lines 18 to 20) before the path is touched. In directory
mode a missing output folder exits 1 (lines 174 to 176) before any video is
opened; a video that fails to open exits 1 inside initialize_video (lines 43
to 45); otherwise the run completes and the process exits 0. In file mode an
open failure exits 1, otherwise 0. An invalid path exits 1 (lines 199 to
201). -/
def mainExitE2 (env : Env) : Nat :=
  if env.usageFlag then 0
  else
    match env.pathKind with
    | PathKind.dir =>
        if !env.folderSelected then 1
        else if env.videoOpens.all id then 0 else 1
    | PathKind.file => if env.singleOpens then 0 else 1
    | PathKind.invalid => 1

/-- toggleFirst always reestablishes invariant I1: either the new first mark
is set, or the last mark was cleared along with it. -/
theorem I1_toggleFirst (i : Int) (s : MarkState) : I1 (toggleFirst i s) := by
  unfold I1 toggleFirst
  by_cases h : s.firstFrame = some i <;> simp [h]

/-- toggleLast preserves a set first mark, hence I1 whenever it runs with the
first mark set. -/
theorem I1_toggleLast (i : Int) (s : MarkState) (h : s.firstFrame ≠ none) :
    I1 (toggleLast i s) := by
  unfold I1 toggleLast
  intro _
  simpa using h

/-- I1 holds after any guarded sequence of mark transitions from a state
satisfying I1. -/
theorem I1_runMarkOps (ops : List MarkOp) :
    ∀ s : MarkState, I1 s → lastGuarded s ops = true → I1 (runMarkOps s ops) := by
  induction ops with
  | nil => intro s h _; exact h
  | cons op ops ih =>
      intro s h hg
      unfold lastGuarded at hg
      rw [Bool.and_eq_true] at hg
      show I1 (runMarkOps (applyMarkOp s op) ops)
      cases op with
      | tFirst i => exact ih _ (I1_toggleFirst i s) hg.2
      | tLast i =>
          have hf : s.firstFrame ≠ none := by
            simpa [Option.isSome_iff_ne_none] using hg.1
          exact ih _ (I1_toggleLast i s hf) hg.2

/-- A mark transition that empties a set first mark also empties the last
mark: only toggleFirst can empty the first mark, and it clears the last mark
whenever it does. -/
theorem applyMarkOp_empties_last (s : MarkState) (op : MarkOp)
    (h1 : s.firstFrame ≠ none) (h2 : (applyMarkOp s op).firstFrame = none) :
    (applyMarkOp s op).lastFrame = none := by
  cases op with
  | tFirst i =>
      unfold applyMarkOp toggleFirst at h2 ⊢
      by_cases h : s.firstFrame = some i <;> simp_all
  | tLast i =>
      unfold applyMarkOp toggleLast at h2
      exact absurd h2 h1

/-- C1: starting from the empty MarkState, invariant I1 (a set last mark
implies a set first mark) holds after every sequence of toggleFirst and
toggleLast transitions in which every toggleLast runs while the first mark is
set, and any transition that empties a set first mark empties the last mark
in the same transition. Without the guard the invariant fails, since
toggleLast sets the last mark regardless of the first mark. -/
theorem C1_I1_guarded_sequences (ops : List MarkOp) (s : MarkState)
    (op : MarkOp) (hg : lastGuarded emptyMark ops = true)
    (h1 : s.firstFrame ≠ none) (h2 : (applyMarkOp s op).firstFrame = none) :
    I1 (runMarkOps emptyMark ops) ∧ (applyMarkOp s op).lastFrame = none :=
  ⟨I1_runMarkOps ops emptyMark (by decide) hg,
   applyMarkOp_empties_last s op h1 h2⟩

/-- C1 witness: a concrete guarded sequence satisfying I1 at the end, and a
concrete transition emptying the first mark that also empties the last. -/
theorem C1_witness :
    I1 (runMarkOps emptyMark [MarkOp.tFirst 2, MarkOp.tLast 5]) ∧
      (applyMarkOp ⟨some 1, some 3, false⟩ (MarkOp.tFirst 1)).lastFrame = none :=
  C1_I1_guarded_sequences [MarkOp.tFirst 2, MarkOp.tLast 5]
    ⟨some 1, some 3, false⟩ (MarkOp.tFirst 1) (by decide) (by decide) (by decide)

/-- C1 counterexample: from the empty MarkState, a single toggleLast sets the
last mark while the first mark stays empty, violating I1. -/
theorem C1_counterexample : ¬ I1 (runMarkOps emptyMark [MarkOp.tLast 0]) := by
  decide

/-- C5 (amended): applying toggleFirst i twice restores the prior MarkState
except that the last mark is forced empty, provided the prior first mark was
empty or equal to i. When the prior first mark is a different index j, the
pair of calls clears the first mark instead of restoring it. -/
theorem C5_toggleFirst_twice (i : Int) (s : MarkState)
    (h : s.firstFrame = none ∨ s.firstFrame = some i) :
    toggleFirst i (toggleFirst i s) = { s with lastFrame := none } := by
  obtain ⟨f, l, a⟩ := s
  rcases h with h | h <;> simp only at h <;> subst h <;> simp [toggleFirst]

/-- C5 witness: with the first mark at 3 and the last mark at 7, pressing f
at index 3 twice restores the first mark and the accident flag, while the
last mark is cleared on the first press and not restored by the second. -/
theorem C5_witness :
    toggleFirst 3 (toggleFirst 3 ⟨some 3, some 7, true⟩) =
      (⟨some 3, none, true⟩ : MarkState) :=
  C5_toggleFirst_twice 3 ⟨some 3, some 7, true⟩ (Or.inr rfl)

/-- C5 counterexample: with the first mark at 0, applying toggleFirst 1 twice
does not return the MarkState to its prior value (nor to the prior value with
the last mark cleared, which here is the same state): the first mark ends up
empty rather than restored to 0. -/
theorem C5_counterexample :
    toggleFirst 1 (toggleFirst 1 ⟨some 0, none, false⟩) ≠
      (⟨some 0, none, false⟩ : MarkState) := by
  decide

/-- C9: the four pure navigation events (step back via the comma key, step
forward via the period key, scroll up, scroll down) leave the MarkState of
both program variants unchanged; only the current frame may change. -/
theorem C9_nav_preserves_marks (decode : Int → Option ℚ) (videoName : String)
    (s : VState) (e : NavEvent) :
    ((stepE1 decode s (navToPg e)).1).mark = s.mark ∧
      ((stepE2 decode videoName s (navToPg e)).1).mark = s.mark := by
  cases e <;> simp [stepE1, stepE2, navToPg]

/-- One navigation event in exporter.py keeps the current frame inside the
valid range and does not change the frame count. -/
theorem stepE1_nav_bounds (decode : Int → Option ℚ) (s : VState) (e : NavEvent)
    (hfc : 1 ≤ s.frameCount) (h0 : 0 ≤ s.currentFrame)
    (h1 : s.currentFrame ≤ s.frameCount - 1) :
    0 ≤ ((stepE1 decode s (navToPg e)).1).currentFrame ∧
      ((stepE1 decode s (navToPg e)).1).currentFrame ≤
        ((stepE1 decode s (navToPg e)).1).frameCount - 1 ∧
      ((stepE1 decode s (navToPg e)).1).frameCount = s.frameCount := by
  cases e <;> simp [stepE1, navToPg] <;> omega

/-- One navigation event in exporter2.py keeps the current frame inside the
valid range and does not change the frame count. -/
theorem stepE2_nav_bounds (decode : Int → Option ℚ) (videoName : String)
    (s : VState) (e : NavEvent) (hfc : 1 ≤ s.frameCount)
    (h0 : 0 ≤ s.currentFrame) (h1 : s.currentFrame ≤ s.frameCount - 1) :
    0 ≤ ((stepE2 decode videoName s (navToPg e)).1).currentFrame ∧
      ((stepE2 decode videoName s (navToPg e)).1).currentFrame ≤
        ((stepE2 decode videoName s (navToPg e)).1).frameCount - 1 ∧
      ((stepE2 decode videoName s (navToPg e)).1).frameCount = s.frameCount := by
  cases e <;> simp [stepE2, navToPg] <;> omega

/-- Any sequence of navigation events in exporter.py keeps the current frame
inside the valid range and preserves the frame count. -/
theorem runNavE1_bounds (decode : Int → Option ℚ) (evs : List NavEvent) :
    ∀ s : VState, 1 ≤ s.frameCount → 0 ≤ s.currentFrame →
      s.currentFrame ≤ s.frameCount - 1 →
      0 ≤ (runNavE1 decode s evs).currentFrame ∧
        (runNavE1 decode s evs).currentFrame ≤
          (runNavE1 decode s evs).frameCount - 1 ∧
        (runNavE1 decode s evs).frameCount = s.frameCount := by
  induction evs with
  | nil => intro s hfc h0 h1; exact ⟨h0, h1, rfl⟩
  | cons e evs ih =>
      intro s hfc h0 h1
      obtain ⟨g0, g1, gfc⟩ := stepE1_nav_bounds decode s e hfc h0 h1
      have := ih ((stepE1 decode s (navToPg e)).1) (by omega) g0 (by omega)
      simpa [runNavE1, gfc] using this

/-- Any sequence of navigation events in exporter2.py keeps the current frame
inside the valid range and preserves the frame count. -/
theorem runNavE2_bounds (decode : Int → Option ℚ) (videoName : String)
    (evs : List NavEvent) :
    ∀ s : VState, 1 ≤ s.frameCount → 0 ≤ s.currentFrame →
      s.currentFrame ≤ s.frameCount - 1 →
      0 ≤ (runNavE2 decode videoName s evs).currentFrame ∧
        (runNavE2 decode videoName s evs).currentFrame ≤
          (runNavE2 decode videoName s evs).frameCount - 1 ∧
        (runNavE2 decode videoName s evs).frameCount = s.frameCount := by
  induction evs with
  | nil => intro s hfc h0 h1; exact ⟨h0, h1, rfl⟩
  | cons e evs ih =>
      intro s hfc h0 h1
      obtain ⟨g0, g1, gfc⟩ :=
        stepE2_nav_bounds decode videoName s e hfc h0 h1
      have := ih ((stepE2 decode videoName s (navToPg e)).1) (by omega) g0
        (by omega)
      simpa [runNavE2, gfc] using this

/-- C4: for a frame count of at least 1 and a starting current frame inside
the valid range, any sequence of step-back, step-forward, scroll-up or
scroll-down events keeps the current frame inside the range in both program
variants; moreover on the range, one step back computes the maximum of 0 and
currentFrame minus 1, and one step forward computes the minimum of
frameCount minus 1 and currentFrame plus 1, in both variants. -/
theorem C4_navigation_clamped (decode : Int → Option ℚ) (videoName : String)
    (s : VState) (evs : List NavEvent) (hfc : 1 ≤ s.frameCount)
    (h0 : 0 ≤ s.currentFrame) (h1 : s.currentFrame ≤ s.frameCount - 1) :
    (0 ≤ (runNavE1 decode s evs).currentFrame ∧
       (runNavE1 decode s evs).currentFrame ≤ s.frameCount - 1) ∧
    (0 ≤ (runNavE2 decode videoName s evs).currentFrame ∧
       (runNavE2 decode videoName s evs).currentFrame ≤ s.frameCount - 1) ∧
    ((stepE1 decode s (navToPg NavEvent.stepBack)).1).currentFrame =
      max 0 (s.currentFrame - 1) ∧
    ((stepE1 decode s (navToPg NavEvent.stepForward)).1).currentFrame =
      min (s.frameCount - 1) (s.currentFrame + 1) ∧
    ((stepE2 decode videoName s (navToPg NavEvent.stepBack)).1).currentFrame =
      max 0 (s.currentFrame - 1) ∧
    ((stepE2 decode videoName s
        (navToPg NavEvent.stepForward)).1).currentFrame =
      min (s.frameCount - 1) (s.currentFrame + 1) := by
  obtain ⟨a0, a1, afc⟩ := runNavE1_bounds decode evs s hfc h0 h1
  obtain ⟨b0, b1, bfc⟩ := runNavE2_bounds decode videoName evs s hfc h0 h1
  refine ⟨⟨a0, by omega⟩, ⟨b0, by omega⟩, ?_, ?_, ?_, ?_⟩ <;>
    simp [stepE1, stepE2, navToPg] <;> omega

/-- C4 witness: a concrete run of three navigation events from frame 0 of a
five-frame video stays inside the range in the exporter.py variant. -/
theorem C4_witness :
    0 ≤ (runNavE1 (fun _ => none)
        ⟨emptyMark, 0, 5, true, false, false⟩
        [NavEvent.stepBack, NavEvent.scrollDown,
         NavEvent.stepForward]).currentFrame ∧
      (runNavE1 (fun _ => none) ⟨emptyMark, 0, 5, true, false, false⟩
        [NavEvent.stepBack, NavEvent.scrollDown,
         NavEvent.stepForward]).currentFrame ≤ (5 : Int) - 1 :=
  (C4_navigation_clamped (fun _ => none) "v"
    ⟨emptyMark, 0, 5, true, false, false⟩
    [NavEvent.stepBack, NavEvent.scrollDown, NavEvent.stepForward]
    (by decide) (by decide) (by decide)).1

/-- C3: whenever the first or the last mark is empty, a press of key e is a
no-op in both program variants: the whole session state (MarkState and
playback fields) is returned unchanged and no image and no record artifact
is produced. -/
theorem C3_export_gate (decode : Int → Option ℚ) (videoName : String)
    (s : VState) (h : s.mark.firstFrame = none ∨ s.mark.lastFrame = none) :
    handleExportE1 decode s = (s, ExportOutcome.noop) ∧
      handleExportE2 decode videoName s = (s, E2Outcome.noop) := by
  obtain ⟨⟨f, l, a⟩, cf, fc, r, p, fs⟩ := s
  cases f <;> cases l <;> simp_all [handleExportE1, handleExportE2]

/-- C3 witness: with the first mark empty and the last mark at 3, a press of
key e leaves the state unchanged and produces nothing, in both variants. -/
theorem C3_witness :
    handleExportE1 (fun _ => some 0)
        ⟨⟨none, some 3, false⟩, 0, 10, true, false, false⟩ =
      (⟨⟨none, some 3, false⟩, 0, 10, true, false, false⟩,
       ExportOutcome.noop) ∧
      handleExportE2 (fun _ => some 0) "v"
          ⟨⟨none, some 3, false⟩, 0, 10, true, false, false⟩ =
        (⟨⟨none, some 3, false⟩, 0, 10, true, false, false⟩, E2Outcome.noop) :=
  C3_export_gate (fun _ => some 0) "v"
    ⟨⟨none, some 3, false⟩, 0, 10, true, false, false⟩ (Or.inl rfl)

/-- Rounding half to even is the identity on integers. -/
theorem roundHalfEven_intCast (n : ℤ) : roundHalfEven (n : ℚ) = n := by
  unfold roundHalfEven
  norm_num

/-- pyRound3 is the identity on integer multiples of one thousandth. -/
theorem pyRound3_thousandth (k : ℤ) :
    pyRound3 ((k : ℚ) / 1000) = (k : ℚ) / 1000 := by
  unfold pyRound3
  rw [div_mul_cancel₀ _ (by norm_num : (1000 : ℚ) ≠ 0), roundHalfEven_intCast]

/-- pyRound3 fixes the difference of two thousandth multiples. -/
theorem pyRound3_diff (a b : ℤ) :
    pyRound3 ((a : ℚ) / 1000 - (b : ℚ) / 1000) =
      (a : ℚ) / 1000 - (b : ℚ) / 1000 := by
  have h : (a : ℚ) / 1000 - (b : ℚ) / 1000 = ((a - b : ℤ) : ℚ) / 1000 := by
    push_cast
    ring
  rw [h, pyRound3_thousandth]

/-- Rounding the difference of two already rounded timestamps changes
nothing: both are multiples of one thousandth. -/
theorem pyRound3_sub (x y : ℚ) :
    pyRound3 (pyRound3 x - pyRound3 y) = pyRound3 x - pyRound3 y :=
  pyRound3_diff (roundHalfEven (x * 1000)) (roundHalfEven (y * 1000))

/-- When both marked frames decode, save_frames writes exactly the two
images named after the marked indices, in order, and collects exactly the
two timestamp entries, in order. -/
theorem saveFrames_both (decode : Int → Option ℚ) (ff lf : Int) (acc : Bool)
    (tf tl : ℚ) (hf : decode ff = some tf) (hl : decode lf = some tl) :
    saveFrames decode ff lf acc =
      ([frameFilename ff, frameFilename lf],
       [⟨ff, tf, accidentStatusStr acc⟩, ⟨lf, tl, accidentStatusStr acc⟩]) := by
  simp [saveFrames, saveFramesStep, hf, hl]

/-- Full reduction of the exporter.py key e handler on a state with both
marks set and both decodes succeeding. -/
theorem handleExportE1_success (decode : Int → Option ℚ) (s : VState)
    (ff lf : Int) (tf tl : ℚ) (hf : s.mark.firstFrame = some ff)
    (hl : s.mark.lastFrame = some lf) (df : decode ff = some tf)
    (dl : decode lf = some tl) :
    handleExportE1 decode s =
      ({ s with mark := ⟨none, none, false⟩ },
       ExportOutcome.exported [frameFilename ff, frameFilename lf]
         ⟨ff, pyRound3 tf, lf, pyRound3 tl, pyRound3 tl - pyRound3 tf,
          s.mark.accidentFlag⟩) := by
  simp only [handleExportE1, hf, hl,
    saveFrames_both decode ff lf s.mark.accidentFlag tf tl df dl]
  simp [pyRound3_sub]

/-- C6: on any state with both marks set and both decodes succeeding, the
export of exporter.py succeeds and writes the record whose stored time
difference equals the stored last timestamp minus the stored first
timestamp, signed, with the two sample points kept in mark order (first
mark first) whatever the numeric order of the indices. -/
theorem C6_time_difference_signed (decode : Int → Option ℚ) (s : VState)
    (ff lf : Int) (tf tl : ℚ) (hf : s.mark.firstFrame = some ff)
    (hl : s.mark.lastFrame = some lf) (df : decode ff = some tf)
    (dl : decode lf = some tl) :
    (handleExportE1 decode s).2 =
      ExportOutcome.exported [frameFilename ff, frameFilename lf]
        ⟨ff, pyRound3 tf, lf, pyRound3 tl, pyRound3 tl - pyRound3 tf,
         s.mark.accidentFlag⟩ := by
  rw [handleExportE1_success decode s ff lf tf tl hf hl df dl]

/-- C6 witness: the reversed-order example of the spec. With the first mark
at 40 (timestamp 4000 ms) and the last mark at 10 (timestamp 1000 ms), the
export succeeds, keeps the sample points in mark order, and the recorded
time difference is the negative value minus 3000 ms. -/
theorem C6_witness :
    (handleExportE1
        (fun i => if i = 40 then some 4000 else
          if i = 10 then some 1000 else none)
        ⟨⟨some 40, some 10, true⟩, 0, 100, true, false, false⟩).2 =
      ExportOutcome.exported [frameFilename 40, frameFilename 10]
        ⟨40, pyRound3 4000, 10, pyRound3 1000, pyRound3 1000 - pyRound3 4000,
         true⟩ ∧
      pyRound3 (1000 : ℚ) - pyRound3 4000 = -3000 :=
  ⟨C6_time_difference_signed
      (fun i => if i = 40 then some 4000 else
        if i = 10 then some 1000 else none)
      ⟨⟨some 40, some 10, true⟩, 0, 100, true, false, false⟩
      40 10 4000 1000 rfl rfl (by decide) (by decide),
   by norm_num [pyRound3, roundHalfEven]⟩

/-- C7 (amended): after every successful export in exporter.py both marks
become empty and the accident flag becomes false, while the playback fields
are untouched, so the session loop keeps running on the same video. In
exporter2.py a successful export instead returns from process_video at once,
ending the session for that video without resetting the mark state. -/
theorem C7_reset_and_continue (decode : Int → Option ℚ) (s : VState)
    (ff lf : Int) (tf tl : ℚ) (hf : s.mark.firstFrame = some ff)
    (hl : s.mark.lastFrame = some lf) (df : decode ff = some tf)
    (dl : decode lf = some tl) :
    ((handleExportE1 decode s).1).mark = ⟨none, none, false⟩ ∧
      ((handleExportE1 decode s).1).running = s.running ∧
      ((handleExportE1 decode s).1).currentFrame = s.currentFrame ∧
      ((handleExportE1 decode s).1).paused = s.paused := by
  rw [handleExportE1_success decode s ff lf tf tl hf hl df dl]
  exact ⟨rfl, rfl, rfl, rfl⟩

/-- C7 witness: a concrete successful export in exporter.py clears both
marks and the accident flag and leaves the playback fields unchanged. -/
theorem C7_witness :
    ((handleExportE1 (fun i => if i = 3 then some 100 else some 200)
        ⟨⟨some 3, some 7, true⟩, 4, 50, true, true, false⟩).1).mark =
      (⟨none, none, false⟩ : MarkState) ∧
      ((handleExportE1 (fun i => if i = 3 then some 100 else some 200)
          ⟨⟨some 3, some 7, true⟩, 4, 50, true, true, false⟩).1).running =
        true ∧
      ((handleExportE1 (fun i => if i = 3 then some 100 else some 200)
          ⟨⟨some 3, some 7, true⟩, 4, 50, true, true, false⟩).1).currentFrame =
        4 ∧
      ((handleExportE1 (fun i => if i = 3 then some 100 else some 200)
          ⟨⟨some 3, some 7, true⟩, 4, 50, true, true, false⟩).1).paused =
        true :=
  C7_reset_and_continue (fun i => if i = 3 then some 100 else some 200)
    ⟨⟨some 3, some 7, true⟩, 4, 50, true, true, false⟩ 3 7 100 200
    rfl rfl (by decide) (by decide)

/-- C7 counterexample: in exporter2.py a successful export (both marks set,
both decodes succeeding) ends the session loop at once, with the mark state
and accident flag left as they were rather than reset: the claim that the
session loop does not end after a successful export fails on this variant. -/
theorem C7_counterexample :
    handleExportE2 (fun _ => some 5) "v"
        ⟨⟨some 1, some 2, true⟩, 0, 10, true, false, false⟩ =
      (⟨⟨some 1, some 2, true⟩, 0, 10, false, false, false⟩,
       E2Outcome.exported [frameFilename 1, frameFilename 2]
         ⟨"v", 5, 5, true⟩) := by
  decide

/-- C2: the failing input of the claim. With the first mark at 0 and the
last mark at 1, and a decoder that reads frame 0 but fails on frame 1,
exporter.py writes the image file frame_0.jpg (a committed partial
artifact) and then dies of an IndexError on timestamps[1] before any record
row is written: the export attempt does not abort cleanly with the state
preserved for a retry, contradicting the documented DecodeFailure design. -/
theorem C2_decode_failure_commits_artifact :
    handleExportE1 (fun i => if i = 0 then some 0 else none)
        ⟨⟨some 0, some 1, false⟩, 0, 10, true, false, false⟩ =
      (⟨⟨some 0, some 1, false⟩, 0, 10, true, false, false⟩,
       ExportOutcome.crashed [frameFilename 0]) ∧
      [frameFilename 0] ≠ ([] : List String) := by
  constructor
  · decide
  · decide

/-- C8: exporter2.py exits 0 on an explicit usage request (which returns
before the path is examined) and, when processing proceeds, exits nonzero
exactly when the input path is invalid, a video fails to open, or no output
folder is selected in directory mode, where one is required; every other
run completes normally with exit code 0. -/
theorem C8_exit_codes (env : Env) :
    (env.usageFlag = true → mainExitE2 env = 0) ∧
      (mainExitE2 env ≠ 0 ↔
        env.usageFlag = false ∧
          (env.pathKind = PathKind.invalid ∨
            (env.pathKind = PathKind.dir ∧ env.folderSelected = false) ∨
            (env.pathKind = PathKind.dir ∧ env.folderSelected = true ∧
              env.videoOpens.all id = false) ∨
            (env.pathKind = PathKind.file ∧ env.singleOpens = false))) := by
  obtain ⟨u, pk, fsel, vo, so⟩ := env
  cases u <;> cases pk <;> cases fsel <;> cases so <;>
    rcases h : vo.all id <;> simp_all [mainExitE2]

/-- C10: when both marks sit on the same index, both image writes of
save_frames target the same deterministic filename, so the written filenames
deduplicate to a single artifact, while the timestamp list still carries two
entries for that index. -/
theorem C10_same_index_single_artifact (decode : Int → Option ℚ) (i : Int)
    (accident : Bool) (t : ℚ) (h : decode i = some t) :
    (saveFrames decode i i accident).1 =
        [frameFilename i, frameFilename i] ∧
      ((saveFrames decode i i accident).1).dedup = [frameFilename i] ∧
      (saveFrames decode i i accident).2 =
        [⟨i, t, accidentStatusStr accident⟩,
         ⟨i, t, accidentStatusStr accident⟩] := by
  have hs := saveFrames_both decode i i accident t t h h
  refine ⟨by rw [hs], ?_, by rw [hs]⟩
  rw [hs]
  simp [List.dedup_cons_of_mem]

/-- C10 witness: both marks at index 5 with a decoder returning timestamp 7
produce two writes of frame_5.jpg, one distinct filename, and two timestamp
entries. -/
theorem C10_witness :
    (saveFrames (fun _ => some 7) 5 5 true).1 =
        [frameFilename 5, frameFilename 5] ∧
      ((saveFrames (fun _ => some 7) 5 5 true).1).dedup = [frameFilename 5] ∧
      (saveFrames (fun _ => some 7) 5 5 true).2 =
        [⟨5, 7, accidentStatusStr true⟩, ⟨5, 7, accidentStatusStr true⟩] :=
  C10_same_index_single_artifact (fun _ => some 7) 5 true 7 rfl

/-- C8 witness: directory mode with no output folder selected exits with a
nonzero code. -/
theorem C8_witness :
    mainExitE2 ⟨false, PathKind.dir, false, [], true⟩ ≠ 0 :=
  (C8_exit_codes ⟨false, PathKind.dir, false, [], true⟩).2.mpr
    ⟨rfl, Or.inr (Or.inl ⟨rfl, rfl⟩)⟩

/-- C9 witness: a concrete scroll-up event leaves a concrete mark state
untouched in the exporter.py variant. -/
theorem C9_witness :
    ((stepE1 (fun _ => none)
        ⟨⟨some 1, some 2, true⟩, 3, 9, true, false, false⟩
        (navToPg NavEvent.scrollUp)).1).mark =
      (⟨some 1, some 2, true⟩ : MarkState) :=
  (C9_nav_preserves_marks (fun _ => none) "v"
    ⟨⟨some 1, some 2, true⟩, 3, 9, true, false, false⟩ NavEvent.scrollUp).1

end FrameExporter
